import Mathlib

/-!
Verification development for the GreekFleet360 tenant-isolation guard and
cost-allocation engine.

Shallow embedding conventions:
* Python Decimal values are modelled as exact rationals (Rat).
* Company (tenant) identifiers are Nat, database primary keys are Int.
* The thread-local ambient tenant of core/mixins.py is an explicit value of
  type Option Nat threaded through the functions that read it.
* Django querysets are lists of rows; the scoped manager is a filter over
  such a list.
* Python date objects are triples (year, month, day) compared
  lexicographically, which is exactly how datetime.date compares.
* Fallible Python code (exceptions) is modelled with Except.
-/

namespace GreekFleet

/-! ## core/mixins.py : tenant scope guard -/

/-- Model of core.mixins.set_current_company: overwrite the thread-local
ambient company with the given value (None clears it). -/
def set_current_company (company : Option Nat) (_state : Option Nat) : Option Nat :=
  company

/-- Model of core.mixins.get_current_company: read the thread-local ambient
company, or None when unset. -/
def get_current_company (state : Option Nat) : Option Nat :=
  state

/-- Model of CompanyScopedManager.get_queryset over a list of rows of any
tenant-owned model: if an ambient company is set, keep exactly the rows whose
company field equals it; with no ambient company return the empty queryset
(the fail-closed default of core/mixins.py lines 141 to 148). -/
def get_queryset {α : Type} (companyOf : α → Nat) (ambient : Option Nat)
    (db : List α) : List α :=
  match ambient with
  | some c => db.filter (fun r => decide (companyOf r = c))
  | none => []

/-! ## core/tenant_context.py : scoped acquisition -/

/-- Model of core.tenant_context.tenant_context: set the ambient company, run
the body (which may end in an exception, modelled by Except.error), and in
the finally block reset the ambient company to None. The body receives the
state set by the context manager and returns its result with the state it
left behind. -/
def tenant_context {E A : Type} (company : Option Nat)
    (body : Option Nat → Except E A × Option Nat)
    (state : Option Nat) : Except E A × Option Nat :=
  let state1 := set_current_company company state
  let out := body state1
  (out.1, set_current_company none out.2)

/-! ## finance/services/cost_engine/aggregations.py -/

/-- Model of aggregations.calculate_rate. The Python code returns
(0, MISSING_ACTIVITY) when total_units is 0 or None, and otherwise divides;
the None case of the argument models a Python None. The try/except around
the division can only fire for malformed non-Decimal inputs, which the
Option argument already rules out. -/
def calculate_rate (total_cost : Rat) (total_units : Option Rat) : Rat × String :=
  match total_units with
  | none => (0, "MISSING_ACTIVITY")
  | some u => if u = 0 then (0, "MISSING_ACTIVITY") else (total_cost / u, "OK")

/-- Model of aggregations.calculate_profit_margin: profit = revenue −
total_cost, margin = profit / revenue × 100 when revenue > 0 and 0
otherwise. Returns (profit, margin). -/
def calculate_profit_margin (revenue total_cost : Rat) : Rat × Rat :=
  let profit := revenue - total_cost
  let margin := if 0 < revenue then profit / revenue * 100 else 0
  (profit, margin)

/-! ## Python dates

datetime.date values are triples (year, month, day); Python compares them
lexicographically, and min and max on two dates follow the builtin
functions: max(a, b) picks b only when b is strictly greater, min(a, b)
picks b only when b is strictly smaller. -/

/-- A Python datetime.date: year, month (1 to 12), day (1 to the length of
the month). The Python date constructor enforces those bounds; theorems
about date arithmetic carry them as hypotheses. -/
@[ext]
structure PyDate where
  year : Nat
  month : Nat
  day : Nat
deriving DecidableEq

/-- Lexicographic order on dates, the comparison datetime.date implements. -/
def dateLe (a b : PyDate) : Prop :=
  a.year < b.year ∨ (a.year = b.year ∧
    (a.month < b.month ∨ (a.month = b.month ∧ a.day ≤ b.day)))

/-- Strict lexicographic order on dates. -/
def dateLt (a b : PyDate) : Prop :=
  a.year < b.year ∨ (a.year = b.year ∧
    (a.month < b.month ∨ (a.month = b.month ∧ a.day < b.day)))

instance (a b : PyDate) : Decidable (dateLe a b) :=
  decidable_of_iff (a.year < b.year ∨ (a.year = b.year ∧
    (a.month < b.month ∨ (a.month = b.month ∧ a.day ≤ b.day)))) Iff.rfl

instance (a b : PyDate) : Decidable (dateLt a b) :=
  decidable_of_iff (a.year < b.year ∨ (a.year = b.year ∧
    (a.month < b.month ∨ (a.month = b.month ∧ a.day < b.day)))) Iff.rfl

/-- Python max(a, b): returns b exactly when b is strictly greater than a. -/
def dateMax (a b : PyDate) : PyDate :=
  if dateLt a b then b else a

/-- Python min(a, b): returns b exactly when b is strictly smaller than a. -/
def dateMin (a b : PyDate) : PyDate :=
  if dateLt b a then b else a

/-- Gregorian leap year rule, as used by calendar.monthrange. -/
def isLeap (y : Nat) : Bool :=
  y % 4 == 0 && (y % 100 != 0 || y % 400 == 0)

/-- Number of days of a month, the second component of
calendar.monthrange(year, month). -/
def daysInMonth (y m : Nat) : Nat :=
  if m = 2 then (if isLeap y then 29 else 28)
  else if m = 4 ∨ m = 6 ∨ m = 9 ∨ m = 11 then 30
  else 31

/-! ## finance/services/cost_engine/snapshots.py -/

/-- A snapshot dictionary as produced by build_cost_center_snapshot. -/
structure SnapshotDict where
  cost_center_id : Int
  cost_center_name : String
  cost_center_type : String
  period_start : PyDate
  period_end : PyDate
  basis_unit : String
  total_cost : Rat
  total_units : Rat
  rate : Rat
  status : String
deriving DecidableEq

/-- A breakdown dictionary as produced by build_order_breakdown. -/
structure BreakdownDict where
  order_id : Int
  order_ref : String
  direct_cost : Rat
  vehicle_alloc : Rat
  driver_alloc : Rat
  overhead_alloc : Rat
  total_cost : Rat
  revenue : Rat
  profit : Rat
  margin : Rat
  status : String
deriving DecidableEq

/-- Model of snapshots.build_order_breakdown: total_cost is
vehicle_cost + overhead_cost, direct_cost and driver_alloc are the reserved
zero slots of engine v1, and profit and margin come from
calculate_profit_margin. The order argument is reduced to its id and its
string form. -/
def build_order_breakdown (order_id : Int) (order_ref : String)
    (vehicle_cost overhead_cost revenue : Rat) : BreakdownDict :=
  let total_cost := vehicle_cost + overhead_cost
  let pm := calculate_profit_margin revenue total_cost
  { order_id := order_id
    order_ref := order_ref
    direct_cost := 0
    vehicle_alloc := vehicle_cost
    driver_alloc := 0
    overhead_alloc := overhead_cost
    total_cost := total_cost
    revenue := revenue
    profit := pm.1
    margin := pm.2
    status := "OK" }

/-! ## finance/models.py : the records the engine reads -/

/-- The fields of finance.models.CostCenter that the engine and the
persistence layer read. vehicle_id is None when the center has no vehicle
link. -/
structure CostCenterRec where
  id : Int
  company : Nat
  name : String
  type : String
  vehicle_id : Option Int
  is_active : Bool
deriving DecidableEq

/-- Model of snapshots.build_cost_center_snapshot: compute rate and status
with calculate_rate and package the snapshot dictionary. -/
def build_cost_center_snapshot (cost_center : CostCenterRec)
    (total_cost total_units : Rat) (basis_unit : String)
    (period_start period_end : PyDate) : SnapshotDict :=
  let rs := calculate_rate total_cost (some total_units)
  { cost_center_id := cost_center.id
    cost_center_name := cost_center.name
    cost_center_type := cost_center.type
    period_start := period_start
    period_end := period_end
    basis_unit := basis_unit
    total_cost := total_cost
    total_units := total_units
    rate := rs.1
    status := rs.2 }

/-! ## finance/services/cost_engine/calculator.py -/

/-- calculator.VALID_BASIS_UNITS. -/
def VALID_BASIS_UNITS : List String := ["KM", "HOUR", "TRIP", "REVENUE"]

/-- Model of calculator._to_decimal restricted to the inputs that occur
here: None becomes 0, a Decimal passes through. -/
def to_decimal (v : Option Rat) : Rat :=
  v.getD 0

/-- Model of a Python `x or dflt` over an optional string, where None and
the empty string are falsy. -/
def orDefault (v : Option String) (dflt : String) : String :=
  match v with
  | none => dflt
  | some s => if s = "" then dflt else s

/-- Python str.upper on the ASCII strings flowing through the engine,
written as a structural map over the characters so that it evaluates by
reduction. -/
def pyUpper (s : String) : String :=
  ⟨s.data.map Char.toUpper⟩

/-- Model of calculator._normalize_basis_unit: uppercase str(bu or KM) and
fall back to KM when the result is not a valid basis unit. -/
def normalize_basis_unit (bu : Option String) : String :=
  let s := pyUpper (orDefault bu ("KM"))
  if VALID_BASIS_UNITS.contains s then s else "KM"

/-- Model of calculator._normalize_snapshot: normalize the basis unit,
default a falsy status to OK, and force status MISSING_ACTIVITY whenever
total_units is 0 and the basis unit is KM, HOUR or TRIP. The Decimal
re-coercions of the source are identities in the rational model. -/
def normalize_snapshot (s : SnapshotDict) : SnapshotDict :=
  let bu := normalize_basis_unit (some s.basis_unit)
  let st0 := if s.status = "" then "OK" else s.status
  let st := if s.total_units = 0 ∧ (bu = "KM" ∨ bu = "HOUR" ∨ bu = "TRIP")
    then "MISSING_ACTIVITY" else st0
  { s with basis_unit := bu, status := st }

/-- The body of the Step 4 loop of calculator.calculate_company_costs for
one cost center. The activity aggregates of Steps 1 to 3 enter as the
values already computed from the fetched postings and orders:
totalRevenue and totalKm are the period totals, kmByVehicle is the
per-vehicle distance map of the activity dict (None for an absent key),
and costByCenter is the posting total per cost center id (None for an
absent key, defaulted to 0 as in the source). A center of type OVERHEAD
gets basis REVENUE with the total revenue as units; every other center
gets basis KM with its vehicle distance when it has a (truthy) vehicle
link and the total distance otherwise. -/
def center_snapshot (totalRevenue totalKm : Rat)
    (kmByVehicle : Int → Option Rat) (costByCenter : Int → Option Rat)
    (period_start period_end : PyDate) (cc : CostCenterRec) : SnapshotDict :=
  let total_cost := to_decimal (costByCenter cc.id)
  let bu : String × Rat :=
    if cc.type = "OVERHEAD" then (("REVENUE"), totalRevenue)
    else (("KM"),
      match cc.vehicle_id with
      | some vid => if vid = 0 then totalKm else to_decimal (kmByVehicle vid)
      | none => totalKm)
  normalize_snapshot
    (build_cost_center_snapshot cc total_cost bu.2 bu.1 period_start period_end)

/-- The full Step 4 loop: one normalized snapshot per cost center the
scoped manager returns. -/
def calculate_company_costs_snapshots (ambient : Option Nat)
    (allCostCenters : List CostCenterRec)
    (totalRevenue totalKm : Rat)
    (kmByVehicle : Int → Option Rat) (costByCenter : Int → Option Rat)
    (period_start period_end : PyDate) : List SnapshotDict :=
  (get_queryset (fun cc => cc.company) ambient allCostCenters).map
    (center_snapshot totalRevenue totalKm kmByVehicle costByCenter
      period_start period_end)

/-- The basis unit and unit count the spec prescribes per cost center,
written from the words of spec section 4.3: REVENUE with total revenue for
OVERHEAD centers, otherwise KM with the linked vehicle distance, or the
tenant total distance when the center has no vehicle link. -/
def specBasisUnits (totalRevenue totalKm : Rat)
    (kmByVehicle : Int → Option Rat) (cc : CostCenterRec) : String × Rat :=
  if cc.type = "OVERHEAD" then (("REVENUE"), totalRevenue)
  else (("KM"),
    match cc.vehicle_id with
    | some vid => (kmByVehicle vid).getD 0
    | none => totalKm)

/-! ## finance/services/cost_engine/persist.py

The database is a list of rows. Reads, deletes and the object lookups all
go through the scoped manager (CostRateSnapshot.objects and friends), so
they see a row only when the ambient company matches it; creates insert
the row with the explicitly passed company, as
CompanyScopedQuerySet.create does when the company keyword is present. -/

/-- A stored finance.models.CostRateSnapshot row. cost_center holds the id
of the referenced cost center. -/
structure CostRateSnapshotRow where
  company : Nat
  period_start : PyDate
  period_end : PyDate
  cost_center : Int
  basis_unit : String
  total_cost : Rat
  total_units : Rat
  rate : Rat
  status : String
deriving DecidableEq

/-- A stored finance.models.OrderCostBreakdown row. transport_order holds
the id of the referenced order. -/
structure OrderCostBreakdownRow where
  company : Nat
  transport_order : Int
  period_start : PyDate
  period_end : PyDate
  vehicle_alloc : Rat
  overhead_alloc : Rat
  direct_cost : Rat
  total_cost : Rat
  revenue : Rat
  profit : Rat
  margin : Rat
  status : String
deriving DecidableEq

/-- The fields of finance.models.TransportOrder the persistence layer
reads. -/
structure TransportOrderRec where
  id : Int
  company : Nat
deriving DecidableEq

/-- One entry of the list format accepted by save_cost_rate_snapshots.
cost_center_id is None when the key is missing from the dict or when its
int conversion fails; the numeric fields are None when missing, matching
the dict.get defaults fed into _to_decimal. -/
structure SnapshotPayload where
  cost_center_id : Option Int
  basis_unit : Option String
  total_cost : Option Rat
  total_units : Option Rat
  rate : Option Rat
  status : Option String
deriving DecidableEq

/-- One entry of the list format accepted by save_order_cost_breakdowns. -/
structure BreakdownPayload where
  order_id : Option Int
  vehicle_alloc : Option Rat
  overhead_alloc : Option Rat
  direct_cost : Option Rat
  total_cost : Option Rat
  revenue : Option Rat
  profit : Option Rat
  margin : Option Rat
  status : Option String
deriving DecidableEq

/-- Whether a row is visible to the scoped manager under the given
ambient company. -/
def snapInScope (ambient : Option Nat) (c : Nat) : Bool :=
  match ambient with
  | some a => decide (c = a)
  | none => false

/-- The natural key test of a snapshot row against
(company, period_start, period_end, cost_center, basis_unit). -/
def snapKeyMatches (company : Nat) (ps pe : PyDate) (ccId : Int)
    (bu : String) (r : CostRateSnapshotRow) : Bool :=
  decide (r.company = company) && decide (r.period_start = ps) &&
    decide (r.period_end = pe) && decide (r.cost_center = ccId) &&
    decide (r.basis_unit = bu)

/-- The key test of a breakdown row against
(company, transport_order, period_start, period_end). -/
def breakKeyMatches (company : Nat) (orderId : Int) (ps pe : PyDate)
    (r : OrderCostBreakdownRow) : Bool :=
  decide (r.company = company) && decide (r.transport_order = orderId) &&
    decide (r.period_start = ps) && decide (r.period_end = pe)

/-- CostRateSnapshot.objects.filter(key).delete(): remove every row that is
both visible under the ambient company and matches the key. -/
def scopedDeleteSnap (ambient : Option Nat) (company : Nat) (ps pe : PyDate)
    (ccId : Int) (bu : String) (db : List CostRateSnapshotRow) :
    List CostRateSnapshotRow :=
  db.filter (fun r =>
    !(snapInScope ambient r.company && snapKeyMatches company ps pe ccId bu r))

/-- OrderCostBreakdown.objects.filter(key).delete(). -/
def scopedDeleteBreak (ambient : Option Nat) (company : Nat) (orderId : Int)
    (ps pe : PyDate) (db : List OrderCostBreakdownRow) :
    List OrderCostBreakdownRow :=
  db.filter (fun r =>
    !(snapInScope ambient r.company && breakKeyMatches company orderId ps pe r))

/-- CostCenter.objects.get(id=ccId, company=company): look the id up in the
scoped queryset with the extra company filter; None models DoesNotExist. -/
def costCenter_get (ambient : Option Nat) (ccs : List CostCenterRec)
    (ccId : Int) (company : Nat) : Option CostCenterRec :=
  (get_queryset (fun cc => cc.company) ambient ccs).find?
    (fun cc => decide (cc.id = ccId) && decide (cc.company = company))

/-- TransportOrder.objects.get(id=orderId, company=company). -/
def transportOrder_get (ambient : Option Nat) (orders : List TransportOrderRec)
    (orderId : Int) (company : Nat) : Option TransportOrderRec :=
  (get_queryset (fun o => o.company) ambient orders).find?
    (fun o => decide (o.id = orderId) && decide (o.company = company))

/-- The basis unit normalization of the list branch of
save_cost_rate_snapshots: (snap.get(basis_unit) or KM) uppercased, where
None and the empty string are falsy. -/
def persistBasisUnit (bu : Option String) : String :=
  pyUpper (orDefault bu ("KM"))

/-- The snapshot row the list branch of save_cost_rate_snapshots creates
for one payload entry, after the cost center resolved to ccId and the
basis unit normalized to bu: values go through _to_decimal, a falsy status
defaults to OK, and a zero unit count with basis KM, HOUR or TRIP forces
status MISSING_ACTIVITY. -/
def snapRowOfPayload (company : Nat) (ps pe : PyDate) (ccId : Int)
    (bu : String) (snap : SnapshotPayload) : CostRateSnapshotRow :=
  let tu := to_decimal snap.total_units
  let st0 := orDefault snap.status ("OK")
  let st := if tu = 0 ∧ (bu = "KM" ∨ bu = "HOUR" ∨ bu = "TRIP")
    then "MISSING_ACTIVITY" else st0
  { company := company
    period_start := ps
    period_end := pe
    cost_center := ccId
    basis_unit := bu
    total_cost := to_decimal snap.total_cost
    total_units := tu
    rate := to_decimal snap.rate
    status := st }

/-- The breakdown row save_order_cost_breakdowns creates for one resolved
payload entry. The source create call passes no driver_alloc, so the model
field default 0 applies. -/
def breakRowOfPayload (company : Nat) (orderId : Int) (ps pe : PyDate)
    (b : BreakdownPayload) : OrderCostBreakdownRow :=
  { company := company
    transport_order := orderId
    period_start := ps
    period_end := pe
    vehicle_alloc := to_decimal b.vehicle_alloc
    overhead_alloc := to_decimal b.overhead_alloc
    direct_cost := to_decimal b.direct_cost
    total_cost := to_decimal b.total_cost
    revenue := to_decimal b.revenue
    profit := to_decimal b.profit
    margin := to_decimal b.margin
    status := orDefault b.status ("OK") }

/-- Model of the list branch of
CostEnginePersistence.save_cost_rate_snapshots (persist.py lines 177 to
225): walk the payload in order; skip an entry whose cost_center_id is
missing or whose cost center lookup raises DoesNotExist; otherwise delete
the rows of the natural key and insert the fresh row. Returns the created
rows and the database state after the call. -/
def save_cost_rate_snapshots_list (ambient : Option Nat)
    (ccs : List CostCenterRec) (company : Nat) (ps pe : PyDate) :
    List SnapshotPayload → List CostRateSnapshotRow →
    List CostRateSnapshotRow × List CostRateSnapshotRow
  | [], db => ([], db)
  | snap :: rest, db =>
    match snap.cost_center_id with
    | none => save_cost_rate_snapshots_list ambient ccs company ps pe rest db
    | some ccId =>
      match costCenter_get ambient ccs ccId company with
      | none => save_cost_rate_snapshots_list ambient ccs company ps pe rest db
      | some cc =>
        let bu := persistBasisUnit snap.basis_unit
        let db1 := scopedDeleteSnap ambient company ps pe cc.id bu db
        let row := snapRowOfPayload company ps pe cc.id bu snap
        let out := save_cost_rate_snapshots_list ambient ccs company ps pe
          rest (db1 ++ [row])
        (row :: out.1, out.2)

/-- Model of the list branch of
CostEnginePersistence.save_order_cost_breakdowns (persist.py lines 286 to
327). A falsy order id (missing, unconvertible, or 0) skips the entry, as
does a DoesNotExist lookup. -/
def save_order_cost_breakdowns_list (ambient : Option Nat)
    (orders : List TransportOrderRec) (company : Nat) (ps pe : PyDate) :
    List BreakdownPayload → List OrderCostBreakdownRow →
    List OrderCostBreakdownRow × List OrderCostBreakdownRow
  | [], db => ([], db)
  | b :: rest, db =>
    match b.order_id with
    | none => save_order_cost_breakdowns_list ambient orders company ps pe rest db
    | some orderId =>
      if orderId = 0 then
        save_order_cost_breakdowns_list ambient orders company ps pe rest db
      else
        match transportOrder_get ambient orders orderId company with
        | none => save_order_cost_breakdowns_list ambient orders company ps pe rest db
        | some o =>
          let db1 := scopedDeleteBreak ambient company o.id ps pe db
          let row := breakRowOfPayload company o.id ps pe b
          let out := save_order_cost_breakdowns_list ambient orders company ps pe
            rest (db1 ++ [row])
          (row :: out.1, out.2)

/-- Whether a snapshot payload entry resolves to a cost center of the given
company: exactly the entries that are not skipped by
save_cost_rate_snapshots. -/
def snapResolves (ambient : Option Nat) (ccs : List CostCenterRec)
    (company : Nat) (snap : SnapshotPayload) : Bool :=
  match snap.cost_center_id with
  | none => false
  | some ccId => (costCenter_get ambient ccs ccId company).isSome

/-- Whether a breakdown payload entry resolves to a transport order of the
given company: exactly the entries that are not skipped by
save_order_cost_breakdowns. -/
def breakResolves (ambient : Option Nat) (orders : List TransportOrderRec)
    (company : Nat) (b : BreakdownPayload) : Bool :=
  match b.order_id with
  | none => false
  | some orderId =>
    if orderId = 0 then false
    else (transportOrder_get ambient orders orderId company).isSome

/-- The list branch of save_cost_rate_snapshots with a failure oracle on
the create calls: the database layer may raise on any insert (constraint
violation, connection loss, ...), which aborts the remaining iterations
and propagates out of the function body, as a Python exception would. -/
def save_cost_rate_snapshots_listE (failOn : CostRateSnapshotRow → Bool)
    (ambient : Option Nat) (ccs : List CostCenterRec) (company : Nat)
    (ps pe : PyDate) :
    List SnapshotPayload → List CostRateSnapshotRow →
    Except Unit (List CostRateSnapshotRow × List CostRateSnapshotRow)
  | [], db => Except.ok ([], db)
  | snap :: rest, db =>
    match snap.cost_center_id with
    | none => save_cost_rate_snapshots_listE failOn ambient ccs company ps pe rest db
    | some ccId =>
      match costCenter_get ambient ccs ccId company with
      | none => save_cost_rate_snapshots_listE failOn ambient ccs company ps pe rest db
      | some cc =>
        let bu := persistBasisUnit snap.basis_unit
        let db1 := scopedDeleteSnap ambient company ps pe cc.id bu db
        let row := snapRowOfPayload company ps pe cc.id bu snap
        if failOn row then Except.error ()
        else
          match save_cost_rate_snapshots_listE failOn ambient ccs company ps pe
            rest (db1 ++ [row]) with
          | Except.error e => Except.error e
          | Except.ok out => Except.ok (row :: out.1, out.2)

/-- Model of the Django transaction.atomic decorator on a state-passing
body, with its documented semantics: commit the body state on normal
return, roll the database back to the state at entry when the body raises
and re-raise. -/
def atomic {E A DB : Type} (f : DB → Except E (A × DB)) (db : DB) :
    Except E A × DB :=
  match f db with
  | Except.ok out => (Except.ok out.1, out.2)
  | Except.error e => (Except.error e, db)

/-! ## finance/services/analytics/kpis.py : trend view -/

/-- The loop body of kpis._month_buckets, one iteration per calendar month.
The loop variable current of the source is always the first day of the
month (year, month); each iteration clamps the bucket to the query range
with bucket_start = max(current, period_start) and
bucket_end = min(last day of month, period_end), then advances current by
one month. The Python while loop runs once per month from the month of
period_start through the month of period_end; the fuel argument is chosen
by month_buckets to cover exactly those iterations plus the final failing
guard test, so the unfolding coincides with the loop. -/
def monthBucketsGo (ps pe : PyDate) (year month : Nat) :
    Nat → List (PyDate × PyDate)
  | 0 => []
  | fuel + 1 =>
    if dateLe ⟨year, month, 1⟩ pe then
      (dateMax ⟨year, month, 1⟩ ps,
        dateMin ⟨year, month, daysInMonth year month⟩ pe) ::
        (if month = 12 then monthBucketsGo ps pe (year + 1) 1 fuel
         else monthBucketsGo ps pe year (month + 1) fuel)
    else []

/-- Model of kpis._month_buckets: start at period_start with the day
replaced by 1 and collect one clamped bucket per month up to
period_end. -/
def month_buckets (ps pe : PyDate) : List (PyDate × PyDate) :=
  monthBucketsGo ps pe ps.year ps.month
    (pe.year * 12 + pe.month + 2 - (ps.year * 12 + ps.month))

/-- One element of the series get_trend builds. -/
structure TrendPoint where
  period_start : PyDate
  period_end : PyDate
  total_cost : Rat
  total_units : Rat
  avg_rate : Rat
deriving DecidableEq

/-- A snapshot row counts for a bucket when its period overlaps the bucket:
the filter period_start <= bucket_end and period_end >= bucket_start of
get_trend. -/
def snapOverlapsBucket (r : CostRateSnapshotRow) (bs be : PyDate) : Bool :=
  decide (dateLe r.period_start be) && decide (dateLe bs r.period_end)

/-- The per-bucket aggregation of the get_trend loop: over the scoped
queryset, keep the rows of the requested (already uppercased) basis unit
whose period overlaps the bucket, sum total_cost and total_units (a sum
over no rows is 0), and divide for avg_rate only when the unit sum is
positive. -/
def trend_point (ambient : Option Nat) (db : List CostRateSnapshotRow)
    (bu : String) (bs be : PyDate) : TrendPoint :=
  let rows := (get_queryset (fun r => r.company) ambient db).filter
    (fun r => decide (r.basis_unit = bu) && snapOverlapsBucket r bs be)
  let total_cost := (rows.map (fun r => r.total_cost)).sum
  let total_units := (rows.map (fun r => r.total_units)).sum
  let avg_rate := if 0 < total_units then total_cost / total_units else 0
  { period_start := bs
    period_end := be
    total_cost := total_cost
    total_units := total_units
    avg_rate := avg_rate }

/-- Model of kpis.get_trend with grain month: uppercase the basis unit,
compute the month buckets of the query range, and aggregate each bucket
independently. Returns the series list. -/
def get_trend_series (ambient : Option Nat) (db : List CostRateSnapshotRow)
    (ps pe : PyDate) (basis_unit : String) : List TrendPoint :=
  (month_buckets ps pe).map
    (fun b => trend_point ambient db (pyUpper basis_unit) b.1 b.2)

/-! ## Helper lemmas -/

/-- The scoped queryset is a sublist of the table. -/
lemma get_queryset_subset {α : Type} (companyOf : α → Nat) (ambient : Option Nat)
    (db : List α) : ∀ r ∈ get_queryset companyOf ambient db, r ∈ db := by
  intro r hr
  cases ambient with
  | none => cases hr
  | some c => exact List.mem_of_mem_filter hr

/-- A successful cost center lookup returns a stored cost center with the
requested id and company. -/
lemma costCenter_get_spec (ambient : Option Nat) (ccs : List CostCenterRec)
    (ccId : Int) (company : Nat) (cc : CostCenterRec)
    (h : costCenter_get ambient ccs ccId company = some cc) :
    cc ∈ ccs ∧ cc.id = ccId ∧ cc.company = company := by
  unfold costCenter_get at h
  have hmem := get_queryset_subset (fun cc => cc.company) ambient ccs cc
    (List.mem_of_find?_eq_some h)
  have hpred := List.find?_some h
  simp only [Bool.and_eq_true, decide_eq_true_eq] at hpred
  exact ⟨hmem, hpred.1, hpred.2⟩

/-- A successful transport order lookup returns a stored order with the
requested id and company. -/
lemma transportOrder_get_spec (ambient : Option Nat)
    (orders : List TransportOrderRec) (orderId : Int) (company : Nat)
    (o : TransportOrderRec)
    (h : transportOrder_get ambient orders orderId company = some o) :
    o ∈ orders ∧ o.id = orderId ∧ o.company = company := by
  unfold transportOrder_get at h
  have hmem := get_queryset_subset (fun o => o.company) ambient orders o
    (List.mem_of_find?_eq_some h)
  have hpred := List.find?_some h
  simp only [Bool.and_eq_true, decide_eq_true_eq] at hpred
  exact ⟨hmem, hpred.1, hpred.2⟩

/-! ## Claim theorems -/

/-- C1: for all tenants A and B with A different from B, a scoped read
through CompanyScopedManager.get_queryset while the ambient tenant is B
returns only rows whose company is B, so no row of A is ever visible; and
with no ambient tenant set, every scoped read returns the empty result set
rather than all rows or raising. -/
theorem C1_scoped_reads_fail_closed {α : Type} (companyOf : α → Nat)
    (tA tB : Nat) (db : List α) (r : α) (hAB : tA ≠ tB)
    (hr : r ∈ get_queryset companyOf (some tB) db) :
    companyOf r = tB ∧ companyOf r ≠ tA ∧
      get_queryset companyOf none db = [] := by
  unfold get_queryset at hr
  have hB : companyOf r = tB := by
    have := (List.mem_filter.1 hr).2
    simpa using this
  exact ⟨hB, fun h => hAB (h.symm.trans hB), rfl⟩

/-- Witness for C1 at tenants 1 and 2, a two-row table and the row of
tenant 2. -/
theorem C1_scoped_reads_fail_closed_witness :
    (⟨5, 2, "B1", "OTHER", none, true⟩ : CostCenterRec).company = 2 ∧
    (⟨5, 2, "B1", "OTHER", none, true⟩ : CostCenterRec).company ≠ 1 ∧
    get_queryset (fun cc : CostCenterRec => cc.company) none
      [⟨5, 2, "B1", "OTHER", none, true⟩, ⟨6, 1, "A1", "OTHER", none, true⟩]
      = [] :=
  C1_scoped_reads_fail_closed (fun cc : CostCenterRec => cc.company) 1 2
    [⟨5, 2, "B1", "OTHER", none, true⟩, ⟨6, 1, "A1", "OTHER", none, true⟩]
    ⟨5, 2, "B1", "OTHER", none, true⟩ (by decide) (by decide)

/-- C8: after a tenant_context(B) block exits, normally or through an
exception, and in particular when it was entered while a scope for A was
already active, the ambient tenant is None (the exit clears the scope
rather than restoring A), so a subsequent scoped read fails closed to the
empty result set. -/
theorem C8_tenant_context_exit_clears {E R : Type} (tA tB : Nat)
    (body : Option Nat → Except E R × Option Nat)
    (db : List CostRateSnapshotRow) :
    get_current_company (tenant_context (some tB) body (some tA)).2 = none ∧
    get_queryset (fun r => r.company)
      (get_current_company (tenant_context (some tB) body (some tA)).2) db
      = [] :=
  ⟨rfl, rfl⟩

/-- C3: for every total_cost, rate computation with zero units returns
rate 0 and status MISSING_ACTIVITY instead of dividing: the division branch
of calculate_rate is only reached when total_units is non-zero and not
None. In particular total_cost 1000 with total_units 0 (the KM scenario of
the spec; calculate_rate does not inspect the basis unit) yields
(0, MISSING_ACTIVITY). -/
theorem C3_zero_units_no_division (total_cost : Rat) :
    calculate_rate total_cost (some 0) = (0, "MISSING_ACTIVITY") ∧
    calculate_rate total_cost none = (0, "MISSING_ACTIVITY") ∧
    calculate_rate 1000 (some 0) = (0, "MISSING_ACTIVITY") := by
  refine ⟨?_, rfl, by decide⟩
  simp [calculate_rate]

/-- C4: every breakdown generated by build_order_breakdown satisfies
total_cost = vehicle_alloc + overhead_alloc + direct_cost + driver_alloc,
profit = revenue − total_cost, and margin = profit / revenue × 100 when
revenue > 0 and margin = 0 otherwise, all as exact rational identities
with no division at revenue = 0. -/
theorem C4_breakdown_profit_law (oid : Int) (oref : String)
    (vehicle_cost overhead_cost revenue : Rat) :
    (build_order_breakdown oid oref vehicle_cost overhead_cost revenue).total_cost
      = (build_order_breakdown oid oref vehicle_cost overhead_cost revenue).vehicle_alloc
        + (build_order_breakdown oid oref vehicle_cost overhead_cost revenue).overhead_alloc
        + (build_order_breakdown oid oref vehicle_cost overhead_cost revenue).direct_cost
        + (build_order_breakdown oid oref vehicle_cost overhead_cost revenue).driver_alloc ∧
    (build_order_breakdown oid oref vehicle_cost overhead_cost revenue).profit
      = (build_order_breakdown oid oref vehicle_cost overhead_cost revenue).revenue
        - (build_order_breakdown oid oref vehicle_cost overhead_cost revenue).total_cost ∧
    (build_order_breakdown oid oref vehicle_cost overhead_cost revenue).margin
      = (if 0 < (build_order_breakdown oid oref vehicle_cost overhead_cost revenue).revenue
         then (build_order_breakdown oid oref vehicle_cost overhead_cost revenue).profit
            / (build_order_breakdown oid oref vehicle_cost overhead_cost revenue).revenue * 100
         else 0) := by
  refine ⟨?_, rfl, rfl⟩
  simp [build_order_breakdown]

/-- Normalizing the basis unit REVENUE keeps it. -/
lemma normalize_basis_unit_revenue :
    normalize_basis_unit (some ("REVENUE")) = "REVENUE" := by decide

/-- Normalizing the basis unit KM keeps it. -/
lemma normalize_basis_unit_km :
    normalize_basis_unit (some ("KM")) = "KM" := by decide

/-- C5: in a cost engine run, every active cost center of the tenant gets
a rate snapshot, with basis unit REVENUE and the period total revenue as
the unit count for OVERHEAD centers, and basis unit KM with the linked
vehicle distance (or the tenant total distance when the center has no
vehicle link) for every other center type. The hypothesis on vehicle_id
records that Django primary keys are never 0. (The source builds a
snapshot for every cost center of the tenant, active or not: the loop
applies no is_active filter, so the active ones are covered.) -/
theorem C5_active_center_basis_units (ambient : Option Nat)
    (allCCs : List CostCenterRec) (totalRevenue totalKm : Rat)
    (kmByVehicle costByCenter : Int → Option Rat) (ps pe : PyDate)
    (company : Nat) (cc : CostCenterRec)
    (hamb : ambient = some company) (hmem : cc ∈ allCCs)
    (hco : cc.company = company) (hact : cc.is_active = true)
    (hveh : cc.vehicle_id ≠ some 0) :
    (calculate_company_costs_snapshots ambient allCCs totalRevenue totalKm
        kmByVehicle costByCenter ps pe).any
      (fun s =>
        decide (s.cost_center_id = cc.id) &&
        decide (s.basis_unit =
          (specBasisUnits totalRevenue totalKm kmByVehicle cc).1) &&
        decide (s.total_units =
          (specBasisUnits totalRevenue totalKm kmByVehicle cc).2)) = true := by
  subst hamb
  have hmem2 : cc ∈ get_queryset (fun c => c.company) (some company) allCCs :=
    List.mem_filter.2 ⟨hmem, by simp [hco]⟩
  refine List.any_eq_true.2
    ⟨center_snapshot totalRevenue totalKm kmByVehicle costByCenter ps pe cc,
      List.mem_map_of_mem _ hmem2, ?_⟩
  simp only [Bool.and_eq_true, decide_eq_true_eq]
  by_cases hov : cc.type = "OVERHEAD"
  · simp [center_snapshot, hov, specBasisUnits, build_cost_center_snapshot,
      normalize_snapshot, normalize_basis_unit_revenue]
  · cases hvid : cc.vehicle_id with
    | none =>
      simp [center_snapshot, hov, hvid, specBasisUnits,
        build_cost_center_snapshot, normalize_snapshot, normalize_basis_unit_km]
    | some vid =>
      have hv0 : ¬(vid = 0) := fun h => hveh (by rw [hvid, h])
      simp [center_snapshot, hov, hvid, hv0, specBasisUnits, to_decimal,
        build_cost_center_snapshot, normalize_snapshot, normalize_basis_unit_km]

/-- Witness for C5: a VEHICLE center of tenant 7 linked to vehicle 11. -/
theorem C5_active_center_basis_units_witness :
    (calculate_company_costs_snapshots (some 7)
        [⟨3, 7, "Truck A", "VEHICLE", some 11, true⟩] 1700 400
        (fun v => if v = 11 then some 250 else none) (fun _ => some 2000)
        ⟨2024, 1, 1⟩ ⟨2024, 1, 31⟩).any
      (fun s =>
        decide (s.cost_center_id =
          (⟨3, 7, "Truck A", "VEHICLE", some 11, true⟩ : CostCenterRec).id) &&
        decide (s.basis_unit = (specBasisUnits 1700 400
          (fun v => if v = 11 then some 250 else none)
          ⟨3, 7, "Truck A", "VEHICLE", some 11, true⟩).1) &&
        decide (s.total_units = (specBasisUnits 1700 400
          (fun v => if v = 11 then some 250 else none)
          ⟨3, 7, "Truck A", "VEHICLE", some 11, true⟩).2)) = true :=
  C5_active_center_basis_units (some 7)
    [⟨3, 7, "Truck A", "VEHICLE", some 11, true⟩] 1700 400
    (fun v => if v = 11 then some 250 else none) (fun _ => some 2000)
    ⟨2024, 1, 1⟩ ⟨2024, 1, 31⟩ 7 ⟨3, 7, "Truck A", "VEHICLE", some 11, true⟩
    rfl (by decide) rfl rfl (by decide)

/-- C10: the zero-units rule of calculate_rate is basis-agnostic (the
function does not even receive the basis unit), so an OVERHEAD cost
center, whose basis is REVENUE, with zero total revenue in the period is
also emitted with rate 0 and status MISSING_ACTIVITY. -/
theorem C10_zero_units_basis_agnostic (tc : Rat) (ambient : Option Nat)
    (allCCs : List CostCenterRec) (totalKm : Rat)
    (kmByVehicle costByCenter : Int → Option Rat) (ps pe : PyDate)
    (company : Nat) (cc : CostCenterRec)
    (hamb : ambient = some company) (hmem : cc ∈ allCCs)
    (hco : cc.company = company) (hov : cc.type = "OVERHEAD") :
    calculate_rate tc (some 0) = (0, "MISSING_ACTIVITY") ∧
    (calculate_company_costs_snapshots ambient allCCs 0 totalKm
        kmByVehicle costByCenter ps pe).any
      (fun s =>
        decide (s.cost_center_id = cc.id) &&
        decide (s.basis_unit = "REVENUE") &&
        decide (s.rate = 0) &&
        decide (s.status = "MISSING_ACTIVITY")) = true := by
  refine ⟨by simp [calculate_rate], ?_⟩
  subst hamb
  have hmem2 : cc ∈ get_queryset (fun c => c.company) (some company) allCCs :=
    List.mem_filter.2 ⟨hmem, by simp [hco]⟩
  refine List.any_eq_true.2
    ⟨center_snapshot 0 totalKm kmByVehicle costByCenter ps pe cc,
      List.mem_map_of_mem _ hmem2, ?_⟩
  simp only [Bool.and_eq_true, decide_eq_true_eq]
  simp [center_snapshot, hov, build_cost_center_snapshot, calculate_rate,
    normalize_snapshot, normalize_basis_unit_revenue]

/-- Witness for C10: an OVERHEAD center of tenant 7 in a period with zero
revenue. -/
theorem C10_zero_units_basis_agnostic_witness :
    calculate_rate 500 (some 0) = (0, "MISSING_ACTIVITY") ∧
    (calculate_company_costs_snapshots (some 7)
        [⟨4, 7, "Admin", "OVERHEAD", none, true⟩] 0 400
        (fun _ => none) (fun _ => some 500)
        ⟨2024, 1, 1⟩ ⟨2024, 1, 31⟩).any
      (fun s =>
        decide (s.cost_center_id =
          (⟨4, 7, "Admin", "OVERHEAD", none, true⟩ : CostCenterRec).id) &&
        decide (s.basis_unit = "REVENUE") &&
        decide (s.rate = 0) &&
        decide (s.status = "MISSING_ACTIVITY")) = true :=
  C10_zero_units_basis_agnostic 500 (some 7)
    [⟨4, 7, "Admin", "OVERHEAD", none, true⟩] 400 (fun _ => none)
    (fun _ => some 500) ⟨2024, 1, 1⟩ ⟨2024, 1, 31⟩ 7
    ⟨4, 7, "Admin", "OVERHEAD", none, true⟩ rfl (by decide) rfl rfl

/-- After the scoped delete of a natural key, performed with the ambient
company equal to the key company, no row of that key remains: a row
matching the key carries the key company, hence is visible to the scoped
manager and is removed. -/
lemma scopedDeleteSnap_clears_key (company : Nat) (ps pe : PyDate)
    (ccId : Int) (bu : String) (db : List CostRateSnapshotRow) :
    (scopedDeleteSnap (some company) company ps pe ccId bu db).filter
      (snapKeyMatches company ps pe ccId bu) = [] := by
  induction db with
  | nil => rfl
  | cons r t ih =>
    unfold scopedDeleteSnap at ih ⊢
    rw [List.filter_cons]
    by_cases hk : snapKeyMatches company ps pe ccId bu r = true
    · have hco : r.company = company := by
        have hk2 := hk
        simp only [snapKeyMatches, Bool.and_eq_true, decide_eq_true_eq] at hk2
        exact hk2.1.1.1.1
      have hsc : snapInScope (some company) r.company = true := by
        simp [snapInScope, hco]
      simp only [hsc, hk, Bool.and_self, Bool.not_true, Bool.false_eq_true,
        if_false]
      exact ih
    · have hknot : snapKeyMatches company ps pe ccId bu r = false :=
        Bool.eq_false_iff.2 hk
      have hcond :
          (!(snapInScope (some company) r.company &&
            snapKeyMatches company ps pe ccId bu r)) = true := by
        simp [hknot]
      rw [if_pos hcond, List.filter_cons, hknot]
      simpa using ih

/-- The freshly inserted row of a save call matches its own natural key. -/
lemma snapRowOfPayload_key (company : Nat) (ps pe : PyDate) (ccId : Int)
    (bu : String) (snap : SnapshotPayload) :
    snapKeyMatches company ps pe ccId bu
      (snapRowOfPayload company ps pe ccId bu snap) = true := by
  simp [snapKeyMatches, snapRowOfPayload]

/-- C2: calling save_cost_rate_snapshots twice for the same natural key
(company, period_start, period_end, cost_center, basis_unit) with
different payload values leaves exactly one stored row for that key, whose
values are the row built from the second call payload: the save deletes
the rows of the key before inserting, so it replaces and never appends a
duplicate. Holds for every prior database state. -/
theorem C2_snapshot_save_replaces (ccs : List CostCenterRec) (company : Nat)
    (ps pe : PyDate) (p1 p2 : SnapshotPayload) (cid : Int)
    (cc : CostCenterRec) (db : List CostRateSnapshotRow)
    (h1 : p1.cost_center_id = some cid) (h2 : p2.cost_center_id = some cid)
    (hcc : costCenter_get (some company) ccs cid company = some cc)
    (hbu : persistBasisUnit p1.basis_unit = persistBasisUnit p2.basis_unit) :
    ((save_cost_rate_snapshots_list (some company) ccs company ps pe [p2]
        ((save_cost_rate_snapshots_list (some company) ccs company ps pe [p1]
          db).2)).2).filter
      (snapKeyMatches company ps pe cc.id (persistBasisUnit p2.basis_unit))
      = [snapRowOfPayload company ps pe cc.id (persistBasisUnit p2.basis_unit)
          p2] := by
  have hsave : ∀ (p : SnapshotPayload) (d : List CostRateSnapshotRow),
      p.cost_center_id = some cid →
      (save_cost_rate_snapshots_list (some company) ccs company ps pe [p] d).2
        = scopedDeleteSnap (some company) company ps pe cc.id
            (persistBasisUnit p.basis_unit) d
          ++ [snapRowOfPayload company ps pe cc.id
            (persistBasisUnit p.basis_unit) p] := by
    intro p d hp
    unfold save_cost_rate_snapshots_list
    rw [hp]
    simp only [hcc]
    rfl
  rw [hsave p1 db h1, hsave p2 _ h2, List.filter_append,
    scopedDeleteSnap_clears_key, List.nil_append, List.filter_cons,
    snapRowOfPayload_key]
  rfl

/-- Witness for C2: tenant 7, cost center 3, two saves for the key
(7, 2024-01, center 3, KM) with different totals; the second save wrote
basis unit km in lowercase, which normalizes to the same key. -/
theorem C2_snapshot_save_replaces_witness :
    ((save_cost_rate_snapshots_list (some 7)
        [⟨3, 7, "Truck A", "VEHICLE", some 11, true⟩] 7
        ⟨2024, 1, 1⟩ ⟨2024, 1, 31⟩
        [⟨some 3, some "km", some 200, some 50, some 4, none⟩]
        ((save_cost_rate_snapshots_list (some 7)
          [⟨3, 7, "Truck A", "VEHICLE", some 11, true⟩] 7
          ⟨2024, 1, 1⟩ ⟨2024, 1, 31⟩
          [⟨some 3, some "KM", some 100, some 40, some 5, none⟩] []).2)).2).filter
      (snapKeyMatches 7 ⟨2024, 1, 1⟩ ⟨2024, 1, 31⟩ 3
        (persistBasisUnit (some "km")))
      = [snapRowOfPayload 7 ⟨2024, 1, 1⟩ ⟨2024, 1, 31⟩ 3
          (persistBasisUnit (some "km"))
          ⟨some 3, some "km", some 200, some 50, some 4, none⟩] :=
  C2_snapshot_save_replaces [⟨3, 7, "Truck A", "VEHICLE", some 11, true⟩] 7
    ⟨2024, 1, 1⟩ ⟨2024, 1, 31⟩
    ⟨some 3, some "KM", some 100, some 40, some 5, none⟩
    ⟨some 3, some "km", some 200, some 50, some 4, none⟩ 3
    ⟨3, 7, "Truck A", "VEHICLE", some 11, true⟩ [] rfl rfl (by decide)
    (by decide)

/-- Every snapshot row created by the list branch of
save_cost_rate_snapshots carries the company of the call, and its cost
center is a stored cost center of that company. -/
lemma snap_created_spec (ambient : Option Nat) (ccs : List CostCenterRec)
    (company : Nat) (ps pe : PyDate) :
    ∀ (payload : List SnapshotPayload) (db : List CostRateSnapshotRow)
      (r : CostRateSnapshotRow),
      r ∈ (save_cost_rate_snapshots_list ambient ccs company ps pe payload
        db).1 →
      r.company = company ∧
        ccs.any (fun cc => decide (cc.id = r.cost_center) &&
          decide (cc.company = company)) = true := by
  intro payload
  induction payload with
  | nil => intro db r hr; cases hr
  | cons snap rest ih =>
    intro db r hr
    unfold save_cost_rate_snapshots_list at hr
    cases hsc : snap.cost_center_id with
    | none =>
      rw [hsc] at hr
      exact ih db r hr
    | some ccId =>
      rw [hsc] at hr
      cases hcg : costCenter_get ambient ccs ccId company with
      | none =>
        simp only [hcg] at hr
        exact ih db r hr
      | some cc =>
        simp only [hcg, List.mem_cons] at hr
        cases hr with
        | inl heq =>
          obtain ⟨hmem, hid, hco⟩ :=
            costCenter_get_spec ambient ccs ccId company cc hcg
          subst heq
          refine ⟨rfl, List.any_eq_true.2 ⟨cc, hmem, ?_⟩⟩
          simp [snapRowOfPayload, hco]
        | inr htail => exact ih _ r htail

/-- Every breakdown row created by the list branch of
save_order_cost_breakdowns carries the company of the call, and its
transport order is a stored order of that company. -/
lemma break_created_spec (ambient : Option Nat)
    (orders : List TransportOrderRec) (company : Nat) (ps pe : PyDate) :
    ∀ (bpayload : List BreakdownPayload) (bdb : List OrderCostBreakdownRow)
      (b : OrderCostBreakdownRow),
      b ∈ (save_order_cost_breakdowns_list ambient orders company ps pe
        bpayload bdb).1 →
      b.company = company ∧
        orders.any (fun o => decide (o.id = b.transport_order) &&
          decide (o.company = company)) = true := by
  intro bpayload
  induction bpayload with
  | nil => intro bdb b hb; cases hb
  | cons bp rest ih =>
    intro bdb b hb
    unfold save_order_cost_breakdowns_list at hb
    cases hoi : bp.order_id with
    | none =>
      rw [hoi] at hb
      exact ih bdb b hb
    | some orderId =>
      rw [hoi] at hb
      by_cases h0 : orderId = 0
      · simp only [h0, if_pos rfl] at hb
        exact ih bdb b hb
      · simp only [if_neg h0] at hb
        cases hog : transportOrder_get ambient orders orderId company with
        | none =>
          simp only [hog] at hb
          exact ih bdb b hb
        | some o =>
          simp only [hog, List.mem_cons] at hb
          cases hb with
          | inl heq =>
            obtain ⟨hmem, hid, hco⟩ :=
              transportOrder_get_spec ambient orders orderId company o hog
            subst heq
            refine ⟨rfl, List.any_eq_true.2 ⟨o, hmem, ?_⟩⟩
            simp [breakRowOfPayload, hco]
          | inr htail => exact ih _ b htail

/-- A snapshot payload entry that does not resolve to a cost center of the
company is skipped: the singleton save creates nothing, changes nothing
and raises nothing. -/
lemma snap_skip (ambient : Option Nat) (ccs : List CostCenterRec)
    (company : Nat) (ps pe : PyDate) (snap : SnapshotPayload)
    (db : List CostRateSnapshotRow)
    (hs : snapResolves ambient ccs company snap = false) :
    save_cost_rate_snapshots_list ambient ccs company ps pe [snap] db
      = ([], db) := by
  unfold snapResolves at hs
  unfold save_cost_rate_snapshots_list
  cases hsc : snap.cost_center_id with
  | none => rfl
  | some ccId =>
    simp only [hsc] at hs
    cases hcg : costCenter_get ambient ccs ccId company with
    | none => simp only [hcg]; rfl
    | some cc => rw [hcg] at hs; simp at hs

/-- A breakdown payload entry with a falsy or unresolvable order id is
skipped: the singleton save creates nothing, changes nothing and raises
nothing. -/
lemma break_skip (ambient : Option Nat) (orders : List TransportOrderRec)
    (company : Nat) (ps pe : PyDate) (bp : BreakdownPayload)
    (bdb : List OrderCostBreakdownRow)
    (hbp : breakResolves ambient orders company bp = false) :
    save_order_cost_breakdowns_list ambient orders company ps pe [bp] bdb
      = ([], bdb) := by
  unfold breakResolves at hbp
  unfold save_order_cost_breakdowns_list
  cases hoi : bp.order_id with
  | none => rfl
  | some orderId =>
    simp only [hoi] at hbp
    by_cases h0 : orderId = 0
    · simp only [h0, if_pos rfl]
      rfl
    · simp only [if_neg h0] at hbp ⊢
      cases hog : transportOrder_get ambient orders orderId company with
      | none => simp only [hog]; rfl
      | some o => rw [hog] at hbp; simp at hbp

/-- C9: every snapshot or breakdown row the persistence save operations
create references a cost center, respectively transport order, stored for
the same company as the row itself; and a payload entry whose
cost_center_id or order_id does not resolve to an entity of the given
company is silently skipped: no row is created, nothing changes and no
error is raised. -/
theorem C9_created_rows_same_company
    (ambient : Option Nat) (ccs : List CostCenterRec)
    (orders : List TransportOrderRec) (company : Nat) (ps pe : PyDate)
    (payload : List SnapshotPayload) (bpayload : List BreakdownPayload)
    (db : List CostRateSnapshotRow) (bdb : List OrderCostBreakdownRow)
    (r : CostRateSnapshotRow) (b : OrderCostBreakdownRow)
    (snap : SnapshotPayload) (bp : BreakdownPayload)
    (hr : r ∈ (save_cost_rate_snapshots_list ambient ccs company ps pe
      payload db).1)
    (hb : b ∈ (save_order_cost_breakdowns_list ambient orders company ps pe
      bpayload bdb).1)
    (hs : snapResolves ambient ccs company snap = false)
    (hbp : breakResolves ambient orders company bp = false) :
    (r.company = company ∧
      ccs.any (fun cc => decide (cc.id = r.cost_center) &&
        decide (cc.company = company)) = true) ∧
    (b.company = company ∧
      orders.any (fun o => decide (o.id = b.transport_order) &&
        decide (o.company = company)) = true) ∧
    save_cost_rate_snapshots_list ambient ccs company ps pe [snap] db
      = ([], db) ∧
    save_order_cost_breakdowns_list ambient orders company ps pe [bp] bdb
      = ([], bdb) :=
  ⟨snap_created_spec ambient ccs company ps pe payload db r hr,
    break_created_spec ambient orders company ps pe bpayload bdb b hb,
    snap_skip ambient ccs company ps pe snap db hs,
    break_skip ambient orders company ps pe bp bdb hbp⟩

/-- Witness for C9: tenant 7 with one cost center and one order; a
resolvable snapshot and breakdown payload create their rows, a payload
with a missing cost center id and one with order id 0 are skipped. -/
theorem C9_created_rows_same_company_witness :
    ((snapRowOfPayload 7 ⟨2024, 1, 1⟩ ⟨2024, 1, 31⟩ 3 "KM"
        ⟨some 3, some "KM", some 100, some 40, some 5, none⟩).company = 7 ∧
      ([⟨3, 7, "Truck A", "VEHICLE", some 11, true⟩] :
          List CostCenterRec).any
        (fun cc => decide (cc.id =
          (snapRowOfPayload 7 ⟨2024, 1, 1⟩ ⟨2024, 1, 31⟩ 3 "KM"
            ⟨some 3, some "KM", some 100, some 40, some 5, none⟩).cost_center)
          && decide (cc.company = 7)) = true) ∧
    ((breakRowOfPayload 7 9 ⟨2024, 1, 1⟩ ⟨2024, 1, 31⟩
        ⟨some 9, some 10, some 20, none, some 30, some 95, some 65, some 12,
          none⟩).company = 7 ∧
      ([⟨9, 7⟩] : List TransportOrderRec).any
        (fun o => decide (o.id =
          (breakRowOfPayload 7 9 ⟨2024, 1, 1⟩ ⟨2024, 1, 31⟩
            ⟨some 9, some 10, some 20, none, some 30, some 95, some 65,
              some 12, none⟩).transport_order)
          && decide (o.company = 7)) = true) ∧
    save_cost_rate_snapshots_list (some 7)
      [⟨3, 7, "Truck A", "VEHICLE", some 11, true⟩] 7
      ⟨2024, 1, 1⟩ ⟨2024, 1, 31⟩
      [⟨none, some "KM", some 1, some 1, some 1, none⟩] [] = ([], []) ∧
    save_order_cost_breakdowns_list (some 7) [⟨9, 7⟩] 7
      ⟨2024, 1, 1⟩ ⟨2024, 1, 31⟩
      [⟨some 0, none, none, none, none, none, none, none, none⟩] []
      = ([], []) :=
  C9_created_rows_same_company (some 7)
    [⟨3, 7, "Truck A", "VEHICLE", some 11, true⟩] [⟨9, 7⟩] 7
    ⟨2024, 1, 1⟩ ⟨2024, 1, 31⟩
    [⟨some 3, some "KM", some 100, some 40, some 5, none⟩]
    [⟨some 9, some 10, some 20, none, some 30, some 95, some 65, some 12,
      none⟩]
    [] []
    (snapRowOfPayload 7 ⟨2024, 1, 1⟩ ⟨2024, 1, 31⟩ 3 "KM"
      ⟨some 3, some "KM", some 100, some 40, some 5, none⟩)
    (breakRowOfPayload 7 9 ⟨2024, 1, 1⟩ ⟨2024, 1, 31⟩
      ⟨some 9, some 10, some 20, none, some 30, some 95, some 65, some 12,
        none⟩)
    ⟨none, some "KM", some 1, some 1, some 1, none⟩
    ⟨some 0, none, none, none, none, none, none, none, none⟩
    (by decide) (by decide) (by decide) (by decide)

/-- When no insert fails, the save with failure oracle agrees with the
plain save: the oracle model only adds the failure channel. -/
lemma saveE_ok_agrees (ambient : Option Nat) (ccs : List CostCenterRec)
    (company : Nat) (ps pe : PyDate) :
    ∀ (payload : List SnapshotPayload) (db : List CostRateSnapshotRow)
      (out : List CostRateSnapshotRow × List CostRateSnapshotRow),
      save_cost_rate_snapshots_listE (fun _ => false) ambient ccs company ps pe
        payload db = Except.ok out →
      save_cost_rate_snapshots_list ambient ccs company ps pe payload db
        = out := by
  intro payload
  induction payload with
  | nil =>
    intro db out h
    simp only [save_cost_rate_snapshots_listE] at h
    cases h
    rfl
  | cons snap rest ih =>
    intro db out h
    unfold save_cost_rate_snapshots_listE at h
    unfold save_cost_rate_snapshots_list
    cases hsc : snap.cost_center_id with
    | none =>
      rw [hsc] at h
      exact ih db out h
    | some ccId =>
      rw [hsc] at h
      cases hcg : costCenter_get ambient ccs ccId company with
      | none =>
        simp only [hcg] at h ⊢
        exact ih db out h
      | some cc =>
        simp only [hcg] at h ⊢
        cases hrec : save_cost_rate_snapshots_listE (fun _ => false) ambient
          ccs company ps pe rest
          (scopedDeleteSnap ambient company ps pe cc.id
            (persistBasisUnit snap.basis_unit) db ++
            [snapRowOfPayload company ps pe cc.id
              (persistBasisUnit snap.basis_unit) snap]) with
        | error e => rw [hrec] at h; cases h
        | ok out2 =>
          rw [hrec] at h
          cases h
          rw [ih _ _ hrec]

/-- C6: when any part of a snapshot save call fails, the transaction.atomic
wrapper aborts the whole save and the database is exactly the state before
the call: no partial set of deletes or inserts is committed. The failure
oracle failOn models the database layer raising on an insert. -/
theorem C6_failed_save_rolls_back (failOn : CostRateSnapshotRow → Bool)
    (ambient : Option Nat) (ccs : List CostCenterRec) (company : Nat)
    (ps pe : PyDate) (payload : List SnapshotPayload)
    (db : List CostRateSnapshotRow) (e : Unit)
    (h : save_cost_rate_snapshots_listE failOn ambient ccs company ps pe
      payload db = Except.error e) :
    atomic (save_cost_rate_snapshots_listE failOn ambient ccs company ps pe
      payload) db = (Except.error e, db) := by
  unfold atomic
  rw [h]

/-- Witness for C6: a two-entry payload where the first entry deletes a
stored row and inserts its replacement, and the insert of the second entry
fails; the whole call rolls back to the original single-row database. -/
theorem C6_failed_save_rolls_back_witness :
    save_cost_rate_snapshots_listE
      (fun r => decide (r.basis_unit = "HOUR")) (some 7)
      [⟨3, 7, "Truck A", "VEHICLE", some 11, true⟩] 7
      ⟨2024, 1, 1⟩ ⟨2024, 1, 31⟩
      [⟨some 3, some "KM", some 100, some 40, some 5, none⟩,
       ⟨some 3, some "HOUR", some 100, some 8, some 12, none⟩]
      [⟨7, ⟨2024, 1, 1⟩, ⟨2024, 1, 31⟩, 3, "KM", 80, 30, 5, "OK"⟩]
      = Except.error () ∧
    atomic (save_cost_rate_snapshots_listE
      (fun r => decide (r.basis_unit = "HOUR")) (some 7)
      [⟨3, 7, "Truck A", "VEHICLE", some 11, true⟩] 7
      ⟨2024, 1, 1⟩ ⟨2024, 1, 31⟩
      [⟨some 3, some "KM", some 100, some 40, some 5, none⟩,
       ⟨some 3, some "HOUR", some 100, some 8, some 12, none⟩])
      [⟨7, ⟨2024, 1, 1⟩, ⟨2024, 1, 31⟩, 3, "KM", 80, 30, 5, "OK"⟩]
      = (Except.error (),
         [⟨7, ⟨2024, 1, 1⟩, ⟨2024, 1, 31⟩, 3, "KM", 80, 30, 5, "OK"⟩]) :=
  ⟨by rfl,
    C6_failed_save_rolls_back
      (fun r => decide (r.basis_unit = "HOUR")) (some 7)
      [⟨3, 7, "Truck A", "VEHICLE", some 11, true⟩] 7
      ⟨2024, 1, 1⟩ ⟨2024, 1, 31⟩
      [⟨some 3, some "KM", some 100, some 40, some 5, none⟩,
       ⟨some 3, some "HOUR", some 100, some 8, some 12, none⟩]
      [⟨7, ⟨2024, 1, 1⟩, ⟨2024, 1, 31⟩, 3, "KM", 80, 30, 5, "OK"⟩] ()
      (by rfl)⟩

/-- Python max of a date with itself. -/
lemma dateMax_self (a : PyDate) : dateMax a a = a := by
  unfold dateMax
  split <;> rfl

/-- Python max keeps the first argument when the second is not greater. -/
lemma dateMax_left (a b : PyDate) (h : ¬ dateLt a b) : dateMax a b = a := by
  unfold dateMax
  rw [if_neg h]

/-- Python min keeps the first argument when the second is not smaller. -/
lemma dateMin_left (a b : PyDate) (h : ¬ dateLt b a) : dateMin a b = a := by
  unfold dateMin
  rw [if_neg h]

/-- Python min returns the second argument when it is in the same month and
on a day not after the first. -/
lemma dateMin_right_of_le (a b : PyDate) (hy : b.year = a.year)
    (hm : b.month = a.month) (hd : b.day ≤ a.day) : dateMin a b = b := by
  unfold dateMin
  by_cases h : dateLt b a
  · rw [if_pos h]
  · rw [if_neg h]
    unfold dateLt at h
    apply PyDate.ext <;> omega

/-- The lexicographic order on explicit date triples, in the form omega
consumes. -/
lemma dateLe_mk (y1 m1 d1 y2 m2 d2 : Nat) :
    dateLe ⟨y1, m1, d1⟩ ⟨y2, m2, d2⟩ ↔
      (y1 < y2 ∨ (y1 = y2 ∧ (m1 < m2 ∨ (m1 = m2 ∧ d1 ≤ d2)))) := Iff.rfl

/-- The strict lexicographic order on explicit date triples. -/
lemma dateLt_mk (y1 m1 d1 y2 m2 d2 : Nat) :
    dateLt ⟨y1, m1, d1⟩ ⟨y2, m2, d2⟩ ↔
      (y1 < y2 ∨ (y1 = y2 ∧ (m1 < m2 ∨ (m1 = m2 ∧ d1 < d2)))) := Iff.rfl

/-- One unfolding of the month bucket loop when fuel remains. -/
lemma monthBucketsGo_succ (ps pe : PyDate) (year month fuel : Nat) :
    monthBucketsGo ps pe year month (fuel + 1) =
      if dateLe ⟨year, month, 1⟩ pe then
        (dateMax ⟨year, month, 1⟩ ps,
          dateMin ⟨year, month, daysInMonth year month⟩ pe) ::
          (if month = 12 then monthBucketsGo ps pe (year + 1) 1 fuel
           else monthBucketsGo ps pe year (month + 1) fuel)
      else [] := rfl

/-- The month bucket computation on a valid query range that starts on the
first day of a month and ends in the immediately following month: exactly
two buckets, the first from period_start to the end of its month, the
second from the first day of the next month to period_end. -/
lemma month_buckets_two_months (ps pe : PyDate)
    (h1 : 1 ≤ ps.month) (h2 : ps.month ≤ 12)
    (h3 : 1 ≤ pe.month) (h4 : pe.month ≤ 12)
    (hd1 : ps.day = 1) (hd2 : 1 ≤ pe.day)
    (hd3 : pe.day ≤ daysInMonth pe.year pe.month)
    (hspan : pe.year * 12 + pe.month = ps.year * 12 + ps.month + 1) :
    month_buckets ps pe =
      [(ps, ⟨ps.year, ps.month, daysInMonth ps.year ps.month⟩),
       (⟨pe.year, pe.month, 1⟩, pe)] := by
  obtain ⟨psy, psm, psd⟩ := ps
  obtain ⟨pey, pem, ped⟩ := pe
  simp only at h1 h2 h3 h4 hd1 hd2 hd3 hspan
  subst hd1
  have hf : pey * 12 + pem + 2 - (psy * 12 + psm) = 3 := by omega
  unfold month_buckets
  simp only
  rw [hf]
  have hcase : (psy = pey ∧ pem = psm + 1) ∨
      (psm = 12 ∧ psy + 1 = pey ∧ pem = 1) := by omega
  rcases hcase with ⟨hy, hm⟩ | ⟨hm12, hy, hm1⟩
  · subst hy
    subst hm
    have hg1 : dateLe ⟨psy, psm, 1⟩ ⟨psy, psm + 1, ped⟩ := by
      rw [dateLe_mk]
      omega
    have hng1 : ¬ dateLt ⟨psy, psm + 1, ped⟩ ⟨psy, psm, daysInMonth psy psm⟩ := by
      rw [dateLt_mk]
      omega
    have hg2 : dateLe ⟨psy, psm + 1, 1⟩ ⟨psy, psm + 1, ped⟩ := by
      rw [dateLe_mk]
      omega
    have hng2 : ¬ dateLt ⟨psy, psm + 1, 1⟩ ⟨psy, psm, 1⟩ := by
      rw [dateLt_mk]
      omega
    rw [monthBucketsGo_succ, if_pos hg1, dateMax_self,
      dateMin_left _ _ hng1, if_neg (by omega : ¬ psm = 12),
      monthBucketsGo_succ, if_pos hg2, dateMax_left _ _ hng2,
      dateMin_right_of_le ⟨psy, psm + 1, daysInMonth psy (psm + 1)⟩
        ⟨psy, psm + 1, ped⟩ rfl rfl hd3]
    by_cases h12 : psm + 1 = 12
    · rw [if_pos h12, monthBucketsGo_succ,
        if_neg (by rw [dateLe_mk]; omega)]
    · rw [if_neg h12, monthBucketsGo_succ,
        if_neg (by rw [dateLe_mk]; omega)]
  · subst hm12
    subst hy
    subst hm1
    have hg1 : dateLe ⟨psy, 12, 1⟩ ⟨psy + 1, 1, ped⟩ := by
      rw [dateLe_mk]
      omega
    have hng1 : ¬ dateLt ⟨psy + 1, 1, ped⟩ ⟨psy, 12, daysInMonth psy 12⟩ := by
      rw [dateLt_mk]
      omega
    have hg2 : dateLe ⟨psy + 1, 1, 1⟩ ⟨psy + 1, 1, ped⟩ := by
      rw [dateLe_mk]
      omega
    have hng2 : ¬ dateLt ⟨psy + 1, 1, 1⟩ ⟨psy, 12, 1⟩ := by
      rw [dateLt_mk]
      omega
    rw [monthBucketsGo_succ, if_pos hg1, dateMax_self,
      dateMin_left _ _ hng1, if_pos rfl,
      monthBucketsGo_succ, if_pos hg2, dateMax_left _ _ hng2,
      dateMin_right_of_le ⟨psy + 1, 1, daysInMonth (psy + 1) 1⟩
        ⟨psy + 1, 1, ped⟩ rfl rfl hd3,
      if_neg (by omega : ¬ (1 : Nat) = 12),
      monthBucketsGo_succ, if_neg (by rw [dateLe_mk]; omega)]

/-- C7 (amended): for a query range that spans exactly two calendar months
and starts on the first day of a month, the trend view with grain month
returns exactly two buckets whose period_start values are the first days
of the two months; and every bucket aggregate sums exactly the persisted
snapshots of the queried tenant and basis unit whose period overlaps that
bucket. Without the first-day hypothesis the first bucket starts at the
query period_start itself (see the counterexample). -/
theorem C7_month_trend_two_buckets (ambient : Option Nat)
    (db : List CostRateSnapshotRow) (basis_unit : String)
    (ps pe bs be : PyDate)
    (h1 : 1 ≤ ps.month) (h2 : ps.month ≤ 12)
    (h3 : 1 ≤ pe.month) (h4 : pe.month ≤ 12)
    (hd1 : ps.day = 1) (hd2 : 1 ≤ pe.day)
    (hd3 : pe.day ≤ daysInMonth pe.year pe.month)
    (hspan : pe.year * 12 + pe.month = ps.year * 12 + ps.month + 1) :
    get_trend_series ambient db ps pe basis_unit =
      [trend_point ambient db (pyUpper basis_unit) ps
        ⟨ps.year, ps.month, daysInMonth ps.year ps.month⟩,
       trend_point ambient db (pyUpper basis_unit) ⟨pe.year, pe.month, 1⟩ pe] ∧
    (get_trend_series ambient db ps pe basis_unit).map
      (fun p => p.period_start) = [ps, ⟨pe.year, pe.month, 1⟩] ∧
    (trend_point ambient db (pyUpper basis_unit) bs be).total_cost =
      (((get_queryset (fun r => r.company) ambient db).filter
        (fun r => decide (r.basis_unit = pyUpper basis_unit) &&
          snapOverlapsBucket r bs be)).map (fun r => r.total_cost)).sum ∧
    (trend_point ambient db (pyUpper basis_unit) bs be).total_units =
      (((get_queryset (fun r => r.company) ambient db).filter
        (fun r => decide (r.basis_unit = pyUpper basis_unit) &&
          snapOverlapsBucket r bs be)).map (fun r => r.total_units)).sum := by
  have hb := month_buckets_two_months ps pe h1 h2 h3 h4 hd1 hd2 hd3 hspan
  refine ⟨?_, ?_, rfl, rfl⟩
  · unfold get_trend_series
    rw [hb]
    rfl
  · unfold get_trend_series
    rw [hb]
    rfl

/-- Witness for C7 at the range 2024-01-01 to 2024-02-29 for tenant 7 with
one January snapshot in the store. -/
theorem C7_month_trend_two_buckets_witness :
    get_trend_series (some 7)
      [⟨7, ⟨2024, 1, 1⟩, ⟨2024, 1, 31⟩, 3, "KM", 100, 40, 5, "OK"⟩]
      ⟨2024, 1, 1⟩ ⟨2024, 2, 29⟩ "KM" =
      [trend_point (some 7)
        [⟨7, ⟨2024, 1, 1⟩, ⟨2024, 1, 31⟩, 3, "KM", 100, 40, 5, "OK"⟩]
        (pyUpper "KM") ⟨2024, 1, 1⟩ ⟨2024, 1, daysInMonth 2024 1⟩,
       trend_point (some 7)
        [⟨7, ⟨2024, 1, 1⟩, ⟨2024, 1, 31⟩, 3, "KM", 100, 40, 5, "OK"⟩]
        (pyUpper "KM") ⟨2024, 2, 1⟩ ⟨2024, 2, 29⟩] ∧
    (get_trend_series (some 7)
      [⟨7, ⟨2024, 1, 1⟩, ⟨2024, 1, 31⟩, 3, "KM", 100, 40, 5, "OK"⟩]
      ⟨2024, 1, 1⟩ ⟨2024, 2, 29⟩ "KM").map (fun p => p.period_start)
      = [⟨2024, 1, 1⟩, ⟨2024, 2, 1⟩] ∧
    (trend_point (some 7)
      [⟨7, ⟨2024, 1, 1⟩, ⟨2024, 1, 31⟩, 3, "KM", 100, 40, 5, "OK"⟩]
      (pyUpper "KM") ⟨2024, 1, 1⟩ ⟨2024, 1, 31⟩).total_cost =
      (((get_queryset (fun r => r.company) (some 7)
        [⟨7, ⟨2024, 1, 1⟩, ⟨2024, 1, 31⟩, 3, "KM", 100, 40, 5, "OK"⟩]).filter
        (fun r => decide (r.basis_unit = pyUpper "KM") &&
          snapOverlapsBucket r ⟨2024, 1, 1⟩ ⟨2024, 1, 31⟩)).map
        (fun r => r.total_cost)).sum ∧
    (trend_point (some 7)
      [⟨7, ⟨2024, 1, 1⟩, ⟨2024, 1, 31⟩, 3, "KM", 100, 40, 5, "OK"⟩]
      (pyUpper "KM") ⟨2024, 1, 1⟩ ⟨2024, 1, 31⟩).total_units =
      (((get_queryset (fun r => r.company) (some 7)
        [⟨7, ⟨2024, 1, 1⟩, ⟨2024, 1, 31⟩, 3, "KM", 100, 40, 5, "OK"⟩]).filter
        (fun r => decide (r.basis_unit = pyUpper "KM") &&
          snapOverlapsBucket r ⟨2024, 1, 1⟩ ⟨2024, 1, 31⟩)).map
        (fun r => r.total_units)).sum :=
  C7_month_trend_two_buckets (some 7)
    [⟨7, ⟨2024, 1, 1⟩, ⟨2024, 1, 31⟩, 3, "KM", 100, 40, 5, "OK"⟩] "KM"
    ⟨2024, 1, 1⟩ ⟨2024, 2, 29⟩ ⟨2024, 1, 1⟩ ⟨2024, 1, 31⟩
    (by decide) (by decide) (by decide) (by decide) (by decide) (by decide)
    (by decide) (by decide)

/-- Counterexample to C7 as stated: the query range 2024-01-15 to
2024-02-20 spans exactly two calendar months and produces two buckets, but
the first bucket period_start is 2024-01-15, the query start, not the
first day of January: the loop clamps the bucket start with
max(first of month, period_start). -/
theorem C7_counterexample_mid_month_start :
    (get_trend_series none [] ⟨2024, 1, 15⟩ ⟨2024, 2, 20⟩ "KM").map
      (fun p => p.period_start) = [⟨2024, 1, 15⟩, ⟨2024, 2, 1⟩] ∧
    (⟨2024, 1, 15⟩ : PyDate) ≠ ⟨2024, 1, 1⟩ := by
  exact ⟨by decide, by decide⟩

end GreekFleet
